import Mathlib

/-!
Verification of the PLC simulator (`python-app/plc_simulator.py`).

The Python program is shallowly embedded here.  Modelling conventions:

* Python floats are modelled as exact rationals (`ℚ`); the claims under
  scrutiny are about the algebraic structure of the computations, not about
  binary floating-point rounding.
* `int(x)` (Python truncation toward zero) is `pyInt`.
* The in-memory register dict `self.register_values` and the pymodbus
  holding-register block `self.store` are modelled as total functions
  `ℕ → ℤ`, indexed by the register address passed to
  `setValues(3, addr, ...)` / `getValues(3, addr, 1)`.  pymodbus stores the
  13 Python ints unmasked, and reads and writes go through the same address
  mapping, so this is exact for the properties considered.
* Tkinter `DoubleVar`s are rationals; the `Label`/`StringVar` display
  widgets are modelled structurally: a numeric label holds the number it
  renders (the `:.1f`/`:.2f` decimal formatting is abstracted to the value
  itself), the NPSH `StringVar`s hold `none` for the initial `"---"` text
  and otherwise the displayed number, plus for the margin a `Bool` that is
  `true` exactly when the warning marker is shown.
* In `calculate_npsh` the five `DoubleVar.get()` calls are the operations
  inside the `try:` block that can raise (Tcl raises when the variable does
  not hold a number); they are modelled as `Option ℚ` inputs of
  `calculate_npshE`, with `none` meaning the read raises.  The arithmetic,
  the string formatting and the `StringVar.set` calls cannot raise.
* `print` calls, the treeview rows, `messagebox` popups and the pump canvas
  drawing are pure output; the canvas is kept as the boolean
  `pump_drawn_running`, the rest is dropped.
-/

/-- Python `int()` on an exact rational: truncation toward zero
(`Int.tdiv` is T-division). -/
def pyInt (q : ℚ) : ℤ := Int.tdiv q.num q.den

/-- Pointwise update of a register file, modelling one dict assignment
`register_values[k] = v` or one datastore write `setValues(3, k, [v])`. -/
def updFn (f : ℕ → ℤ) (k : ℕ) (v : ℤ) : ℕ → ℤ := fun r => if r = k then v else f r

/-- NPSHr curve of `calculate_npsh` (plc_simulator.py lines 487-518),
translated clause by clause from the `if flow <= 0: ... elif ... else:`
chain. -/
def npshr_curve (flow : ℚ) : ℚ :=
  if flow ≤ 0 then 0.5
  else if flow ≤ 100 then 0.5 + flow / 100 * 2.7
  else if flow ≤ 200 then 3.2 + (flow - 100) / 100 * 2.8
  else if flow ≤ 300 then 6.0 + (flow - 200) / 100 * 3.1
  else if flow ≤ 400 then 9.1 + (flow - 300) / 100 * 3.3
  else if flow ≤ 480 then 12.4 + (flow - 400) / 80 * 4.0
  else if flow ≤ 550 then 16.4 + (flow - 480) / 70 * (-0.6)
  else if flow ≤ 650 then 15.8 + (flow - 550) / 100 * (-0.8)
  else if flow ≤ 750 then 15.0 + (flow - 650) / 100 * (-0.8)
  else if flow ≤ 850 then 14.2 + (flow - 750) / 100 * (-0.2)
  else if flow ≤ 950 then 14.0 + (flow - 850) / 100 * 0.4
  else if flow ≤ 1050 then 14.4 + (flow - 950) / 100 * 0.8
  else if flow ≤ 1100 then 15.2 + (flow - 1050) / 50 * 0.8
  else if flow ≤ 1150 then 16.0 + (flow - 1100) / 50 * 1.5
  else if flow ≤ 1200 then 17.5 + (flow - 1150) / 50 * 1.5
  else 19.0 + (flow - 1200) / 100 * 2.0

/-- Breakpoint table of the 8x15DMX-3 NPSHr curve, as listed in the spec. -/
def npshr_breakpoints : List (ℚ × ℚ) :=
  [(0, 0.5), (100, 3.2), (200, 6.0), (300, 9.1), (400, 12.4), (480, 16.4),
   (550, 15.8), (650, 15.0), (750, 14.2), (850, 14.0), (950, 14.4),
   (1050, 15.2), (1100, 16.0), (1150, 17.5), (1200, 19.0)]

/-- Linear interpolation between two breakpoints. -/
def lerp (p q : ℚ × ℚ) (x : ℚ) : ℚ := p.2 + (x - p.1) / (q.1 - p.1) * (q.2 - p.2)

/-- Table lookup with linear interpolation: find the band of the breakpoint
table whose right endpoint bounds `x` and interpolate linearly inside it. -/
def interpTable : List (ℚ × ℚ) → ℚ → ℚ
  | p :: q :: rest, x => if x ≤ q.1 then lerp p q x else interpTable (q :: rest) x
  | [p], _ => p.2
  | [], _ => 0

/-- Modelled from the spec wording of the NPSHr claim: the piecewise-linear
interpolation through the 15 listed breakpoints, constant `0.5` at or below
flow `0`, and linearly extrapolated as `19.0 + (flow - 1200)/100 * 2.0`
above flow `1200`. -/
def npshr_spec (flow : ℚ) : ℚ :=
  if flow ≤ 0 then 0.5
  else if flow ≤ 1200 then interpTable npshr_breakpoints flow
  else 19.0 + (flow - 1200) / 100 * 2.0

/-- Unfolding of the table lookup on the concrete breakpoint list. -/
theorem interpTable_breakpoints (x : ℚ) :
    interpTable npshr_breakpoints x =
      if x ≤ 100 then lerp (0, 0.5) (100, 3.2) x
      else if x ≤ 200 then lerp (100, 3.2) (200, 6.0) x
      else if x ≤ 300 then lerp (200, 6.0) (300, 9.1) x
      else if x ≤ 400 then lerp (300, 9.1) (400, 12.4) x
      else if x ≤ 480 then lerp (400, 12.4) (480, 16.4) x
      else if x ≤ 550 then lerp (480, 16.4) (550, 15.8) x
      else if x ≤ 650 then lerp (550, 15.8) (650, 15.0) x
      else if x ≤ 750 then lerp (650, 15.0) (750, 14.2) x
      else if x ≤ 850 then lerp (750, 14.2) (850, 14.0) x
      else if x ≤ 950 then lerp (850, 14.0) (950, 14.4) x
      else if x ≤ 1050 then lerp (950, 14.4) (1050, 15.2) x
      else if x ≤ 1100 then lerp (1050, 15.2) (1100, 16.0) x
      else if x ≤ 1150 then lerp (1100, 16.0) (1150, 17.5) x
      else if x ≤ 1200 then lerp (1150, 17.5) (1200, 19.0) x
      else 19.0 := by
  rfl

/-- C1: for every flow value the NPSHr computed by `calculate_npsh` equals
the piecewise-linear interpolation through the breakpoints
(0, 0.5), (100, 3.2), ..., (1200, 19.0), is the constant 0.5 for every
flow ≤ 0, and is linearly extrapolated as `19.0 + (flow - 1200)/100 * 2.0`
for every flow > 1200. -/
theorem npshr_matches_breakpoint_interpolation (flow : ℚ) :
    npshr_curve flow = npshr_spec flow := by
  unfold npshr_curve npshr_spec
  rw [interpTable_breakpoints]
  unfold lerp
  rcases le_or_lt flow 0 with h | h0
  · simp only [if_pos h]
  simp only [if_neg (not_le.mpr h0)]
  rcases le_or_lt flow 100 with h | h1
  · simp only [if_pos h, if_pos (show flow ≤ 1200 by linarith)]; ring
  simp only [if_neg (not_le.mpr h1)]
  rcases le_or_lt flow 200 with h | h2
  · simp only [if_pos h, if_pos (show flow ≤ 1200 by linarith)]; ring
  simp only [if_neg (not_le.mpr h2)]
  rcases le_or_lt flow 300 with h | h3
  · simp only [if_pos h, if_pos (show flow ≤ 1200 by linarith)]; ring
  simp only [if_neg (not_le.mpr h3)]
  rcases le_or_lt flow 400 with h | h4
  · simp only [if_pos h, if_pos (show flow ≤ 1200 by linarith)]; ring
  simp only [if_neg (not_le.mpr h4)]
  rcases le_or_lt flow 480 with h | h5
  · simp only [if_pos h, if_pos (show flow ≤ 1200 by linarith)]; ring
  simp only [if_neg (not_le.mpr h5)]
  rcases le_or_lt flow 550 with h | h6
  · simp only [if_pos h, if_pos (show flow ≤ 1200 by linarith)]; ring
  simp only [if_neg (not_le.mpr h6)]
  rcases le_or_lt flow 650 with h | h7
  · simp only [if_pos h, if_pos (show flow ≤ 1200 by linarith)]; ring
  simp only [if_neg (not_le.mpr h7)]
  rcases le_or_lt flow 750 with h | h8
  · simp only [if_pos h, if_pos (show flow ≤ 1200 by linarith)]; ring
  simp only [if_neg (not_le.mpr h8)]
  rcases le_or_lt flow 850 with h | h9
  · simp only [if_pos h, if_pos (show flow ≤ 1200 by linarith)]; ring
  simp only [if_neg (not_le.mpr h9)]
  rcases le_or_lt flow 950 with h | h10
  · simp only [if_pos h, if_pos (show flow ≤ 1200 by linarith)]; ring
  simp only [if_neg (not_le.mpr h10)]
  rcases le_or_lt flow 1050 with h | h11
  · simp only [if_pos h, if_pos (show flow ≤ 1200 by linarith)]; ring
  simp only [if_neg (not_le.mpr h11)]
  rcases le_or_lt flow 1100 with h | h12
  · simp only [if_pos h, if_pos (show flow ≤ 1200 by linarith)]; ring
  simp only [if_neg (not_le.mpr h12)]
  rcases le_or_lt flow 1150 with h | h13
  · simp only [if_pos h, if_pos (show flow ≤ 1200 by linarith)]; ring
  simp only [if_neg (not_le.mpr h13)]
  rcases le_or_lt flow 1200 with h | h14
  · simp only [if_pos h]; ring
  simp only [if_neg (not_le.mpr h14)]

/-- NPSH display variables of the UI (`self.npsha_var`, `self.npshr_var`,
`self.margin_var`): `none` models the initial `"---"` text; the margin
carries the displayed value and a `Bool` that is `true` exactly when the
warning marker is shown. -/
structure NpshDisplays where
  npsha_var : Option ℚ
  npshr_var : Option ℚ
  margin_var : Option (ℚ × Bool)
  deriving DecidableEq

/-- State of the `PLCSimulator` object: the register dict, the pymodbus
holding-register block, the seven tkinter `DoubleVar`s, the numeric display
labels next to the sliders, the NPSH display variables, and the server /
pump-widget state. -/
structure SimState where
  register_values : ℕ → ℤ
  store : ℕ → ℤ
  temp_var : ℚ
  pressure_var : ℚ
  flow_var : ℚ
  static_head_var : ℚ
  friction_loss_var : ℚ
  pipe_diameter_var : ℚ
  elevation_var : ℚ
  temp_display : ℚ
  pressure_display : ℚ
  flow_display : ℚ
  static_head_display : ℚ
  friction_loss_display : ℚ
  pipe_diameter_display : ℚ
  elevation_display : ℚ
  displays : NpshDisplays
  server_running : Bool
  server_thread_alive : Bool
  server_button_text : String
  status_label_text : String
  pump_drawn_running : Bool
  start_button_enabled : Bool
  stop_button_enabled : Bool

/-- The seven `control_type` strings dispatched on by
`update_register_from_slider` and `update_from_entry`. -/
inductive ControlType
  | temp | pressure | flow | static_head | friction_loss | pipe_diameter | elevation
  deriving DecidableEq

/-- Body of `calculate_npsh` (lines 466-533).  The five `DoubleVar.get()`
calls inside the `try:` block are the operations that can raise; a `none`
argument models such a raise, in source order.  The `except` clause only
prints, so on a raise the displays that were current at the raise point are
returned; no display write precedes any of the reads, hence the incoming
displays are returned unchanged. -/
def calculate_npshE (temp_opt pressure_opt flow_opt static_head_opt friction_loss_opt : Option ℚ)
    (d : NpshDisplays) : NpshDisplays :=
  match temp_opt with
  | none => d
  | some temp =>
    match pressure_opt with
    | none => d
    | some pressure =>
      match flow_opt with
      | none => d
      | some flow =>
        let vapor_pressure := 0.0061 * (1.8 * temp + 32) ^ 2 / 100
        let pressure_m := pressure * 10.2
        match static_head_opt with
        | none => d
        | some static_head =>
          match friction_loss_opt with
          | none => d
          | some friction_loss =>
            let npsha := pressure_m - vapor_pressure * 10.2 + static_head - friction_loss
            let npshr := npshr_curve flow
            let margin := npsha - npshr
            { npsha_var := some npsha,
              npshr_var := some npshr,
              margin_var := some (margin, if margin ≥ 0 then false else true) }

/-- `calculate_npsh` on the full simulator state; in the state model the
`DoubleVar`s always hold a rational, so all five reads succeed. -/
def calculate_npsh (s : SimState) : SimState :=
  { s with displays :=
      (calculate_npshE (some s.temp_var) (some s.pressure_var) (some s.flow_var)
        (some s.static_head_var) (some s.friction_loss_var) s.displays) }

/-- `update_register_from_slider` (lines 413-464), translated branch by
branch from the `if control_type == 'temp': ... elif ...` chain; it ends by
calling `calculate_npsh`. -/
def update_register_from_slider (control_type : ControlType) (s : SimState) : SimState :=
  calculate_npsh
    (match control_type with
     | .temp =>
        let value := s.temp_var
        let raw_value := pyInt (value * 10)
        { s with register_values := updFn s.register_values 10 raw_value,
                 temp_display := value,
                 store := updFn s.store 10 raw_value }
     | .pressure =>
        let value := s.pressure_var
        let raw_value := pyInt (value * 100)
        { s with register_values := updFn s.register_values 11 raw_value,
                 pressure_display := value,
                 store := updFn s.store 11 raw_value }
     | .flow =>
        let value := s.flow_var
        let raw_value := pyInt (value * 10)
        { s with register_values := updFn s.register_values 12 raw_value,
                 flow_display := value,
                 store := updFn s.store 12 raw_value }
     | .static_head =>
        let value := s.static_head_var
        let raw_value := pyInt (value * 10)
        { s with register_values := updFn s.register_values 13 raw_value,
                 static_head_display := value,
                 store := updFn s.store 13 raw_value }
     | .friction_loss =>
        let value := s.friction_loss_var
        let raw_value := pyInt (value * 10)
        { s with register_values := updFn s.register_values 14 raw_value,
                 friction_loss_display := value,
                 store := updFn s.store 14 raw_value }
     | .pipe_diameter =>
        let value := s.pipe_diameter_var
        let raw_value := pyInt value
        { s with register_values := updFn s.register_values 15 raw_value,
                 pipe_diameter_display := value,
                 store := updFn s.store 15 raw_value }
     | .elevation =>
        let value := s.elevation_var
        let raw_value := pyInt (value * 10)
        { s with register_values := updFn s.register_values 16 raw_value,
                 elevation_display := value,
                 store := updFn s.store 16 raw_value })

/-- Holding-register address written by each branch of
`update_register_from_slider`. -/
def control_register : ControlType → ℕ
  | .temp => 10
  | .pressure => 11
  | .flow => 12
  | .static_head => 13
  | .friction_loss => 14
  | .pipe_diameter => 15
  | .elevation => 16

/-- The `DoubleVar` addressed by a `control_type`. -/
def control_var (control_type : ControlType) (s : SimState) : ℚ :=
  match control_type with
  | .temp => s.temp_var
  | .pressure => s.pressure_var
  | .flow => s.flow_var
  | .static_head => s.static_head_var
  | .friction_loss => s.friction_loss_var
  | .pipe_diameter => s.pipe_diameter_var
  | .elevation => s.elevation_var

/-- Writing the `DoubleVar` addressed by a `control_type`, modelling the
`self.xxx_var.set(value)` chain of `update_from_entry`. -/
def set_control_var (control_type : ControlType) (value : ℚ) (s : SimState) : SimState :=
  match control_type with
  | .temp => { s with temp_var := value }
  | .pressure => { s with pressure_var := value }
  | .flow => { s with flow_var := value }
  | .static_head => { s with static_head_var := value }
  | .friction_loss => { s with friction_loss_var := value }
  | .pipe_diameter => { s with pipe_diameter_var := value }
  | .elevation => { s with elevation_var := value }

/-- Scale factor applied by `update_register_from_slider` before the
`int()` truncation (pressure is `* 100`, pipe diameter is unscaled). -/
def control_scale : ControlType → ℚ
  | .temp => 10
  | .pressure => 100
  | .flow => 10
  | .static_head => 10
  | .friction_loss => 10
  | .pipe_diameter => 1
  | .elevation => 10

/-- Register dict literal of `__init__` (lines 24-34), built in insertion
order; addresses outside the dict are irrelevant and default to 0. -/
def init_register_values : ℕ → ℤ :=
  updFn (updFn (updFn (updFn (updFn (updFn (updFn (updFn (updFn
    (fun _ => 0) 1 0) 2 0) 10 250) 11 300) 12 0) 13 20) 14 5) 15 150) 16 10

/-- Iteration order of `self.register_values.keys()` (dict insertion
order). -/
def regKeys : List ℕ := [1, 2, 10, 11, 12, 13, 14, 15, 16]

/-- Simulator state after `__init__` up to the register copy loop (lines
11-47): the register dict, the datastore `[0] * 100` overwritten by
`setValues(3, reg, [value])` for every dict entry, the initial `DoubleVar`
and label values, and the `"---"` NPSH displays. -/
def initState : SimState :=
  { register_values := init_register_values,
    store := regKeys.foldl (fun st reg => updFn st reg (init_register_values reg)) (fun _ => 0),
    temp_var := 25.0, pressure_var := 3.0, flow_var := 0.0,
    static_head_var := 2.0, friction_loss_var := 0.5,
    pipe_diameter_var := 150, elevation_var := 1.0,
    temp_display := 25.0, pressure_display := 3.0, flow_display := 0.0,
    static_head_display := 2.0, friction_loss_display := 0.5,
    pipe_diameter_display := 150, elevation_display := 1.0,
    displays := { npsha_var := none, npshr_var := none, margin_var := none },
    server_running := false, server_thread_alive := false,
    server_button_text := "Start Server", status_label_text := "Server: Stopped",
    pump_drawn_running := false,
    start_button_enabled := true, stop_button_enabled := true }

/-- Second concrete state for the statelessness witness: same flow as
`initState`, every other input and register deliberately different. -/
def altState : SimState :=
  { initState with temp_var := 90, pressure_var := 7, static_head_var := 9,
                   friction_loss_var := 3, pipe_diameter_var := 60, elevation_var := 4,
                   register_values := updFn initState.register_values 11 999,
                   store := updFn initState.store 10 777 }

/-- C2: `calculate_npsh` computes
`NPSHa = pressure * 10.2 - (0.0061 * (1.8 * temp + 32)^2 / 100) * 10.2 + static_head - friction_loss`,
computes the margin as `NPSHa - NPSHr`, and displays the margin with a
warning marker exactly when the margin is negative. -/
theorem calculate_npsh_npsha_margin_formula
    (temp pressure flow static_head friction_loss : ℚ) (d : NpshDisplays) :
    ∃ warn : Bool,
      calculate_npshE (some temp) (some pressure) (some flow)
          (some static_head) (some friction_loss) d
        = { npsha_var := some (pressure * 10.2 - 0.0061 * (1.8 * temp + 32) ^ 2 / 100 * 10.2
              + static_head - friction_loss),
            npshr_var := some (npshr_curve flow),
            margin_var := some (pressure * 10.2 - 0.0061 * (1.8 * temp + 32) ^ 2 / 100 * 10.2
              + static_head - friction_loss - npshr_curve flow, warn) }
      ∧ (warn = true ↔ pressure * 10.2 - 0.0061 * (1.8 * temp + 32) ^ 2 / 100 * 10.2
          + static_head - friction_loss - npshr_curve flow < 0) := by
  refine ⟨_, rfl, ?_⟩
  split_ifs with h
  · simp only [Bool.false_eq_true, false_iff, not_lt]
    linarith
  · simp only [true_iff]
    linarith

/-- C3: each branch of `update_register_from_slider` writes the integer
truncation of the UI value times its fixed scale factor into both the
in-memory register map and the corresponding Modbus holding register:
temp * 10 into register 10, pressure * 100 into 11, flow * 10 into 12,
static head * 10 into 13, friction losses * 10 into 14, pipe diameter
unscaled into 15, elevation * 10 into 16. -/
theorem update_register_from_slider_scaled_writes (s : SimState) :
    ((update_register_from_slider .temp s).register_values 10 = pyInt (s.temp_var * 10)
      ∧ (update_register_from_slider .temp s).store 10 = pyInt (s.temp_var * 10))
  ∧ ((update_register_from_slider .pressure s).register_values 11 = pyInt (s.pressure_var * 100)
      ∧ (update_register_from_slider .pressure s).store 11 = pyInt (s.pressure_var * 100))
  ∧ ((update_register_from_slider .flow s).register_values 12 = pyInt (s.flow_var * 10)
      ∧ (update_register_from_slider .flow s).store 12 = pyInt (s.flow_var * 10))
  ∧ ((update_register_from_slider .static_head s).register_values 13 = pyInt (s.static_head_var * 10)
      ∧ (update_register_from_slider .static_head s).store 13 = pyInt (s.static_head_var * 10))
  ∧ ((update_register_from_slider .friction_loss s).register_values 14 = pyInt (s.friction_loss_var * 10)
      ∧ (update_register_from_slider .friction_loss s).store 14 = pyInt (s.friction_loss_var * 10))
  ∧ ((update_register_from_slider .pipe_diameter s).register_values 15 = pyInt s.pipe_diameter_var
      ∧ (update_register_from_slider .pipe_diameter s).store 15 = pyInt s.pipe_diameter_var)
  ∧ ((update_register_from_slider .elevation s).register_values 16 = pyInt (s.elevation_var * 10)
      ∧ (update_register_from_slider .elevation s).store 16 = pyInt (s.elevation_var * 10)) :=
  ⟨⟨rfl, rfl⟩, ⟨rfl, rfl⟩, ⟨rfl, rfl⟩, ⟨rfl, rfl⟩, ⟨rfl, rfl⟩, ⟨rfl, rfl⟩, ⟨rfl, rfl⟩⟩

/-- C5: the NPSHr computation is stateless — two evaluations of
`calculate_npsh` on states agreeing on the flow variable display the same
NPSHr, whatever the other variables and registers hold. -/
theorem npshr_display_depends_only_on_flow (s t : SimState)
    (h : s.flow_var = t.flow_var) :
    (calculate_npsh s).displays.npshr_var = (calculate_npsh t).displays.npshr_var := by
  show some (npshr_curve s.flow_var) = some (npshr_curve t.flow_var)
  rw [h]

/-- Witness for C5 at two concrete states with equal flow and different
temperature, pressure, heads, losses, diameter, elevation and registers. -/
theorem npshr_display_depends_only_on_flow_witness :
    initState.flow_var = altState.flow_var
  ∧ (calculate_npsh initState).displays.npshr_var
      = (calculate_npsh altState).displays.npshr_var :=
  ⟨rfl, npshr_display_depends_only_on_flow initState altState rfl⟩

/-- C6: if one of the variable reads of `calculate_npsh` raises, the
exception is caught and only printed, and the NPSHa, NPSHr and margin
display variables keep exactly the values they had before the call; the
function is total, so no exception propagates to the caller. -/
theorem calculate_npsh_display_unchanged_on_error
    (temp_opt pressure_opt flow_opt static_head_opt friction_loss_opt : Option ℚ)
    (d : NpshDisplays)
    (h : temp_opt = none ∨ pressure_opt = none ∨ flow_opt = none
        ∨ static_head_opt = none ∨ friction_loss_opt = none) :
    calculate_npshE temp_opt pressure_opt flow_opt static_head_opt friction_loss_opt d = d := by
  rcases h with h | h | h | h | h
  · (rw [h]; rfl)
  · cases temp_opt
    · rfl
    · (rw [h]; rfl)
  · cases temp_opt
    · rfl
    · cases pressure_opt
      · rfl
      · (rw [h]; rfl)
  · cases temp_opt
    · rfl
    · cases pressure_opt
      · rfl
      · cases flow_opt
        · rfl
        · (rw [h]; rfl)
  · cases temp_opt
    · rfl
    · cases pressure_opt
      · rfl
      · cases flow_opt
        · rfl
        · cases static_head_opt
          · rfl
          · (rw [h]; rfl)

/-- Witness for C6: a failing flow read leaves concrete displays exactly as
they were. -/
theorem calculate_npsh_display_unchanged_on_error_witness :
    calculate_npshE (some 25) (some 3) none (some 2) (some 0.5)
        { npsha_var := some 7, npshr_var := some 1, margin_var := some (6, false) }
      = { npsha_var := some 7, npshr_var := some 1, margin_var := some (6, false) } :=
  calculate_npsh_display_unchanged_on_error _ _ _ _ _ _ (Or.inr (Or.inr (Or.inl rfl)))

/-- Content of an entry widget as seen by Python `float()`: the empty
string, a non-empty string parsing as the number `v`, or a non-empty
non-numeric string. -/
inductive PyEntryText
  | empty
  | numeric (v : ℚ)
  | invalid
  deriving DecidableEq

/-- Python `float()` on an entry text: `none` models the `ValueError`
raise (on the empty string and on non-numeric text). -/
def pyFloat : PyEntryText → Option ℚ
  | .empty => none
  | .numeric v => some v
  | .invalid => none

/-- `validate_numeric_input` (lines 699-707): empty strings are accepted,
otherwise the text is parsed with `float()` inside a `try:` and the chained
comparison `min_val <= float_val <= max_val` decides; a `ValueError`
returns `False`. -/
def validate_numeric_input (value : PyEntryText) (min_val max_val : ℚ) : Bool :=
  if value = .empty then true
  else
    match pyFloat value with
    | some float_val => decide (min_val ≤ float_val ∧ float_val ≤ max_val)
    | none => false

/-- `update_from_entry` (lines 710-754): parse the entry text; on success,
write the variable only when the value is within bounds, then always call
`update_register_from_slider`; on `ValueError`, rewrite the entry text from
the current variable and touch nothing else.  The result pairs the new
simulator state with the new entry-widget content. -/
def update_from_entry (entry : PyEntryText) (control_type : ControlType)
    (min_val max_val : ℚ) (s : SimState) : SimState × PyEntryText :=
  match pyFloat entry with
  | some value =>
      let s' := if min_val ≤ value ∧ value ≤ max_val then set_control_var control_type value s else s
      (update_register_from_slider control_type s', entry)
  | none =>
      (s, PyEntryText.numeric (control_var control_type s))

/-- Each branch of `update_register_from_slider` leaves every `DoubleVar`
unchanged (it writes only registers, display labels and the NPSH
displays). -/
theorem update_register_from_slider_preserves_vars (ct : ControlType) (s : SimState) :
    control_var ct (update_register_from_slider ct s) = control_var ct s := by
  cases ct <;> rfl

/-- C8: `validate_numeric_input` returns `True` iff the text is empty or
parses as a number `v` with `min_val ≤ v ≤ max_val` (both bounds
inclusive); any non-numeric non-empty string gives `False`, and the
function is total (never raises). -/
theorem validate_numeric_input_spec (value : PyEntryText) (min_val max_val : ℚ) :
    validate_numeric_input value min_val max_val = true
      ↔ (value = PyEntryText.empty
          ∨ ∃ v, pyFloat value = some v ∧ min_val ≤ v ∧ v ≤ max_val) := by
  cases value with
  | empty => simp [validate_numeric_input, pyFloat]
  | numeric v => simp [validate_numeric_input, pyFloat]
  | invalid => simp [validate_numeric_input, pyFloat]

/-- C9: when the entry parses to an out-of-range number, the parameter
variable is untouched and the register is still rewritten (from the
unchanged variable, via `update_register_from_slider`); when the entry does
not parse, the entry text is reset to the current variable value and the
state — registers included — is untouched. -/
theorem update_from_entry_error_paths :
    (∀ (entry : PyEntryText) (v : ℚ) (ct : ControlType) (min_val max_val : ℚ) (s : SimState),
        pyFloat entry = some v → ¬(min_val ≤ v ∧ v ≤ max_val) →
          update_from_entry entry ct min_val max_val s
              = (update_register_from_slider ct s, entry)
            ∧ control_var ct (update_from_entry entry ct min_val max_val s).1
              = control_var ct s
            ∧ (update_from_entry entry ct min_val max_val s).1.register_values
                (control_register ct)
              = pyInt (control_var ct s * control_scale ct))
  ∧ (∀ (entry : PyEntryText) (ct : ControlType) (min_val max_val : ℚ) (s : SimState),
        pyFloat entry = none →
          update_from_entry entry ct min_val max_val s
            = (s, PyEntryText.numeric (control_var ct s))) := by
  constructor
  · intro entry v ct min_val max_val s hparse hout
    have hmain : update_from_entry entry ct min_val max_val s
        = (update_register_from_slider ct s, entry) := by
      unfold update_from_entry
      rw [hparse]
      simp only [if_neg hout]
    refine ⟨hmain, ?_, ?_⟩
    · rw [hmain]
      exact update_register_from_slider_preserves_vars ct s
    · rw [hmain]
      cases ct <;> simp [update_register_from_slider, calculate_npsh, updFn,
        control_var, control_register, control_scale, mul_one]
  · intro entry ct min_val max_val s hparse
    unfold update_from_entry
    rw [hparse]

/-- Witness for C9: out-of-range flow text 5000 on `[0, 1200]` rewrites the
register from the unchanged variable; non-numeric text resets the entry and
leaves the state alone. -/
theorem update_from_entry_error_paths_witness :
    (update_from_entry (PyEntryText.numeric 5000) ControlType.flow 0 1200 initState
        = (update_register_from_slider ControlType.flow initState, PyEntryText.numeric 5000))
  ∧ (update_from_entry PyEntryText.invalid ControlType.flow 0 1200 initState
        = (initState, PyEntryText.numeric (control_var ControlType.flow initState))) :=
  ⟨(update_from_entry_error_paths.1 (PyEntryText.numeric 5000) 5000 ControlType.flow 0 1200
      initState rfl (by norm_num)).1,
   update_from_entry_error_paths.2 PyEntryText.invalid ControlType.flow 0 1200 initState rfl⟩

/-- `manual_pump_control` (lines 535-554).  `rand` is the value drawn by
`random.uniform(200, 600)` when the pump starts with a low flow reading;
the function ends by copying registers 1 and 2 into the Modbus store. -/
def manual_pump_control (start : Bool) (rand : ℚ) (s : SimState) : SimState :=
  let s1 :=
    if start then
      let s2 := { s with register_values := updFn (updFn s.register_values 1 1) 2 1 }
      if s2.register_values 12 < 100 then
        update_register_from_slider .flow { s2 with flow_var := rand }
      else s2
    else
      let s2 := { s with register_values := updFn (updFn s.register_values 1 0) 2 0 }
      update_register_from_slider .flow { s2 with flow_var := 0 }
  { s1 with store := updFn (updFn s1.store 1 (s1.register_values 1)) 2 (s1.register_values 2) }

/-- One iteration of the register read loop of `update_ui` (lines 561-581):
read the store, mirror it into the dict, and when the register is the pump
control, also copy the value into pump status (register 2), dict and store. -/
def update_ui_read_step (s : SimState) (reg : ℕ) : SimState :=
  let value := s.store reg
  let s1 := { s with register_values := updFn s.register_values reg value }
  if reg = 1 then
    { s1 with register_values := updFn s1.register_values 2 value,
              store := updFn s1.store 2 value }
  else s1

/-- External pump start/stop reaction of `update_ui` (lines 584-595). -/
def update_ui_flow (rand : ℚ) (previous_pump_control : ℤ) (s : SimState) : SimState :=
  if previous_pump_control ≠ s.register_values 1 then
    if s.register_values 1 = 1 then
      if s.register_values 12 < 100 then
        update_register_from_slider .flow { s with flow_var := rand }
      else s
    else
      update_register_from_slider .flow { s with flow_var := 0 }
  else s

/-- Pump drawing and button enabling of `update_ui` (lines 597-607). -/
def update_ui_pump_widgets (s : SimState) : SimState :=
  let pump_running : Bool := s.register_values 2 == 1
  let s1 := { s with pump_drawn_running := pump_running }
  if pump_running then
    { s1 with start_button_enabled := false, stop_button_enabled := true }
  else
    { s1 with start_button_enabled := true, stop_button_enabled := false }

/-- Slider re-synchronisation of `update_ui`, temperature (lines 640-642). -/
def sync_temp (s : SimState) : SimState :=
  if ¬(s.temp_var * 10 = (s.register_values 10 : ℚ)) then
    { s with temp_var := (s.register_values 10 : ℚ) / 10,
             temp_display := (s.register_values 10 : ℚ) / 10 }
  else s

/-- Slider re-synchronisation of `update_ui`, pressure (lines 644-646). -/
def sync_pressure (s : SimState) : SimState :=
  if ¬(s.pressure_var * 100 = (s.register_values 11 : ℚ)) then
    { s with pressure_var := (s.register_values 11 : ℚ) / 100,
             pressure_display := (s.register_values 11 : ℚ) / 100 }
  else s

/-- Slider re-synchronisation of `update_ui`, flow (lines 648-650). -/
def sync_flow (s : SimState) : SimState :=
  if ¬(s.flow_var * 10 = (s.register_values 12 : ℚ)) then
    { s with flow_var := (s.register_values 12 : ℚ) / 10,
             flow_display := (s.register_values 12 : ℚ) / 10 }
  else s

/-- Slider re-synchronisation of `update_ui`, static head (lines 652-654). -/
def sync_static_head (s : SimState) : SimState :=
  if ¬(s.static_head_var * 10 = (s.register_values 13 : ℚ)) then
    { s with static_head_var := (s.register_values 13 : ℚ) / 10,
             static_head_display := (s.register_values 13 : ℚ) / 10 }
  else s

/-- Slider re-synchronisation of `update_ui`, friction losses
(lines 656-658). -/
def sync_friction_loss (s : SimState) : SimState :=
  if ¬(s.friction_loss_var * 10 = (s.register_values 14 : ℚ)) then
    { s with friction_loss_var := (s.register_values 14 : ℚ) / 10,
             friction_loss_display := (s.register_values 14 : ℚ) / 10 }
  else s

/-- Slider re-synchronisation of `update_ui`, pipe diameter
(lines 660-662). -/
def sync_pipe_diameter (s : SimState) : SimState :=
  if ¬(s.pipe_diameter_var = (s.register_values 15 : ℚ)) then
    { s with pipe_diameter_var := (s.register_values 15 : ℚ),
             pipe_diameter_display := (s.register_values 15 : ℚ) }
  else s

/-- Slider re-synchronisation of `update_ui`, elevation (lines 664-666). -/
def sync_elevation (s : SimState) : SimState :=
  if ¬(s.elevation_var * 10 = (s.register_values 16 : ℚ)) then
    { s with elevation_var := (s.register_values 16 : ℚ) / 10,
             elevation_display := (s.register_values 16 : ℚ) / 10 }
  else s

/-- Whole slider re-synchronisation block of `update_ui` (lines 639-666),
in source order. -/
def update_ui_sync (s : SimState) : SimState :=
  sync_elevation (sync_pipe_diameter (sync_friction_loss (sync_static_head
    (sync_flow (sync_pressure (sync_temp s))))))

/-- One pass of `update_ui` (lines 556-672), without the `root.after`
re-scheduling: register read loop, external start/stop reaction, pump
widget refresh, slider re-synchronisation, NPSH recomputation.  The
treeview refresh (lines 609-637) is display-only and dropped. -/
def update_ui (rand : ℚ) (s : SimState) : SimState :=
  let previous_pump_control := s.register_values 1
  let s1 := regKeys.foldl update_ui_read_step s
  let s2 := update_ui_flow rand previous_pump_control s1
  let s3 := update_ui_pump_widgets s2
  let s4 := update_ui_sync s3
  calculate_npsh s4

/-- `stop_server` (lines 404-411): it flips the flag, relabels two widgets
and shows a message box; the thread and every register are untouched (the
source itself notes it does not stop the server thread cleanly). -/
def stop_server (s : SimState) : SimState :=
  { s with server_running := false,
           server_button_text := "Start Server",
           status_label_text := "Server: Stopped" }

/-- `update_register_from_slider` writes only registers 10-16: the pump
control register is untouched. -/
theorem update_register_from_slider_rv1 (ct : ControlType) (s : SimState) :
    (update_register_from_slider ct s).register_values 1 = s.register_values 1 := by
  cases ct <;> rfl

/-- `update_register_from_slider` leaves the pump status register alone. -/
theorem update_register_from_slider_rv2 (ct : ControlType) (s : SimState) :
    (update_register_from_slider ct s).register_values 2 = s.register_values 2 := by
  cases ct <;> rfl

/-- `update_register_from_slider` leaves store address 1 alone. -/
theorem update_register_from_slider_st1 (ct : ControlType) (s : SimState) :
    (update_register_from_slider ct s).store 1 = s.store 1 := by
  cases ct <;> rfl

/-- `update_register_from_slider` leaves store address 2 alone. -/
theorem update_register_from_slider_st2 (ct : ControlType) (s : SimState) :
    (update_register_from_slider ct s).store 2 = s.store 2 := by
  cases ct <;> rfl

/-- After the register read loop, registers 1 and 2 both hold the pump
control value read from the store, in the dict and in the store. -/
theorem update_ui_read_loop_pump (s : SimState) :
    ((regKeys.foldl update_ui_read_step s).register_values 1 = s.store 1)
  ∧ ((regKeys.foldl update_ui_read_step s).register_values 2 = s.store 1)
  ∧ ((regKeys.foldl update_ui_read_step s).store 1 = s.store 1)
  ∧ ((regKeys.foldl update_ui_read_step s).store 2 = s.store 1) :=
  ⟨rfl, rfl, rfl, rfl⟩

/-- The external start/stop reaction touches at most the flow register. -/
theorem update_ui_flow_pump_frame (rand : ℚ) (p : ℤ) (s : SimState) :
    ((update_ui_flow rand p s).register_values 1 = s.register_values 1)
  ∧ ((update_ui_flow rand p s).register_values 2 = s.register_values 2)
  ∧ ((update_ui_flow rand p s).store 1 = s.store 1)
  ∧ ((update_ui_flow rand p s).store 2 = s.store 2) := by
  unfold update_ui_flow
  split_ifs
  · exact ⟨update_register_from_slider_rv1 _ _, update_register_from_slider_rv2 _ _,
      update_register_from_slider_st1 _ _, update_register_from_slider_st2 _ _⟩
  · exact ⟨rfl, rfl, rfl, rfl⟩
  · exact ⟨update_register_from_slider_rv1 _ _, update_register_from_slider_rv2 _ _,
      update_register_from_slider_st1 _ _, update_register_from_slider_st2 _ _⟩
  · exact ⟨rfl, rfl, rfl, rfl⟩

/-- The pump widget refresh leaves registers and store untouched. -/
theorem update_ui_pump_widgets_frame (s : SimState) :
    ((update_ui_pump_widgets s).register_values = s.register_values)
  ∧ ((update_ui_pump_widgets s).store = s.store) := by
  simp only [update_ui_pump_widgets]
  split_ifs <;> exact ⟨rfl, rfl⟩

/-- Temperature slider re-sync leaves registers and store untouched. -/
theorem sync_temp_frame (s : SimState) :
    ((sync_temp s).register_values = s.register_values)
  ∧ ((sync_temp s).store = s.store) := by
  unfold sync_temp
  split_ifs <;> exact ⟨rfl, rfl⟩

/-- Pressure slider re-sync leaves registers and store untouched. -/
theorem sync_pressure_frame (s : SimState) :
    ((sync_pressure s).register_values = s.register_values)
  ∧ ((sync_pressure s).store = s.store) := by
  unfold sync_pressure
  split_ifs <;> exact ⟨rfl, rfl⟩

/-- Flow slider re-sync leaves registers and store untouched. -/
theorem sync_flow_frame (s : SimState) :
    ((sync_flow s).register_values = s.register_values)
  ∧ ((sync_flow s).store = s.store) := by
  unfold sync_flow
  split_ifs <;> exact ⟨rfl, rfl⟩

/-- Static head slider re-sync leaves registers and store untouched. -/
theorem sync_static_head_frame (s : SimState) :
    ((sync_static_head s).register_values = s.register_values)
  ∧ ((sync_static_head s).store = s.store) := by
  unfold sync_static_head
  split_ifs <;> exact ⟨rfl, rfl⟩

/-- Friction loss slider re-sync leaves registers and store untouched. -/
theorem sync_friction_loss_frame (s : SimState) :
    ((sync_friction_loss s).register_values = s.register_values)
  ∧ ((sync_friction_loss s).store = s.store) := by
  unfold sync_friction_loss
  split_ifs <;> exact ⟨rfl, rfl⟩

/-- Pipe diameter slider re-sync leaves registers and store untouched. -/
theorem sync_pipe_diameter_frame (s : SimState) :
    ((sync_pipe_diameter s).register_values = s.register_values)
  ∧ ((sync_pipe_diameter s).store = s.store) := by
  unfold sync_pipe_diameter
  split_ifs <;> exact ⟨rfl, rfl⟩

/-- Elevation slider re-sync leaves registers and store untouched. -/
theorem sync_elevation_frame (s : SimState) :
    ((sync_elevation s).register_values = s.register_values)
  ∧ ((sync_elevation s).store = s.store) := by
  unfold sync_elevation
  split_ifs <;> exact ⟨rfl, rfl⟩

/-- The whole slider re-sync block leaves registers and store untouched. -/
theorem update_ui_sync_frame (s : SimState) :
    ((update_ui_sync s).register_values = s.register_values)
  ∧ ((update_ui_sync s).store = s.store) := by
  unfold update_ui_sync
  constructor
  · rw [(sync_elevation_frame _).1, (sync_pipe_diameter_frame _).1,
      (sync_friction_loss_frame _).1, (sync_static_head_frame _).1,
      (sync_flow_frame _).1, (sync_pressure_frame _).1, (sync_temp_frame _).1]
  · rw [(sync_elevation_frame _).2, (sync_pipe_diameter_frame _).2,
      (sync_friction_loss_frame _).2, (sync_static_head_frame _).2,
      (sync_flow_frame _).2, (sync_pressure_frame _).2, (sync_temp_frame _).2]

/-- `calculate_npsh` writes only the NPSH display variables. -/
theorem calculate_npsh_frame (s : SimState) :
    ((calculate_npsh s).register_values = s.register_values)
  ∧ ((calculate_npsh s).store = s.store) :=
  ⟨rfl, rfl⟩

/-- One pass of `update_ui`, spelled as its phases. -/
theorem update_ui_eq (rand : ℚ) (s : SimState) :
    update_ui rand s
      = calculate_npsh (update_ui_sync (update_ui_pump_widgets
          (update_ui_flow rand (s.register_values 1)
            (regKeys.foldl update_ui_read_step s)))) :=
  rfl

/-- C4: after every pass of the `update_ui` loop and after every call to
`manual_pump_control`, the pump status register (2) equals the pump control
register (1), both in the in-memory register map and in the Modbus
store. -/
theorem pump_status_mirrors_pump_control (rand : ℚ) (s : SimState) (start : Bool) :
    ((update_ui rand s).register_values 1 = (update_ui rand s).register_values 2
      ∧ (update_ui rand s).store 1 = (update_ui rand s).store 2)
  ∧ ((manual_pump_control start rand s).register_values 1
        = (manual_pump_control start rand s).register_values 2
      ∧ (manual_pump_control start rand s).store 1
        = (manual_pump_control start rand s).store 2) := by
  constructor
  · rw [update_ui_eq]
    constructor
    · rw [(calculate_npsh_frame _).1, (update_ui_sync_frame _).1,
        (update_ui_pump_widgets_frame _).1,
        (update_ui_flow_pump_frame _ _ _).1, (update_ui_flow_pump_frame _ _ _).2.1,
        (update_ui_read_loop_pump s).1, (update_ui_read_loop_pump s).2.1]
    · rw [(calculate_npsh_frame _).2, (update_ui_sync_frame _).2,
        (update_ui_pump_widgets_frame _).2,
        (update_ui_flow_pump_frame _ _ _).2.2.1, (update_ui_flow_pump_frame _ _ _).2.2.2,
        (update_ui_read_loop_pump s).2.2.1, (update_ui_read_loop_pump s).2.2.2]
  · simp only [manual_pump_control]
    split_ifs
    · exact ⟨rfl, rfl⟩
    · exact ⟨rfl, rfl⟩
    · exact ⟨rfl, rfl⟩

/-- C7: `stop_server` only flips the running flag and relabels the two
server widgets; every register of the dict and of the Modbus store, every
variable, the NPSH displays and the server thread are untouched. -/
theorem stop_server_frame (s : SimState) :
    (stop_server s).server_running = false
  ∧ (stop_server s).server_button_text = "Start Server"
  ∧ (stop_server s).status_label_text = "Server: Stopped"
  ∧ (stop_server s).register_values = s.register_values
  ∧ (stop_server s).store = s.store
  ∧ (stop_server s).server_thread_alive = s.server_thread_alive
  ∧ (stop_server s).temp_var = s.temp_var
  ∧ (stop_server s).pressure_var = s.pressure_var
  ∧ (stop_server s).flow_var = s.flow_var
  ∧ (stop_server s).static_head_var = s.static_head_var
  ∧ (stop_server s).friction_loss_var = s.friction_loss_var
  ∧ (stop_server s).pipe_diameter_var = s.pipe_diameter_var
  ∧ (stop_server s).elevation_var = s.elevation_var
  ∧ (stop_server s).displays = s.displays :=
  ⟨rfl, rfl, rfl, rfl, rfl, rfl, rfl, rfl, rfl, rfl, rfl, rfl, rfl, rfl⟩

/-- C10: the register dict and the Modbus store agree on registers 10-16
right after the `__init__` copy loop, and each `update_register_from_slider`
branch leaves its written register equal in dict and store. -/
theorem register_map_store_coherence :
    (initState.register_values 10 = initState.store 10
      ∧ initState.register_values 11 = initState.store 11
      ∧ initState.register_values 12 = initState.store 12
      ∧ initState.register_values 13 = initState.store 13
      ∧ initState.register_values 14 = initState.store 14
      ∧ initState.register_values 15 = initState.store 15
      ∧ initState.register_values 16 = initState.store 16)
  ∧ (∀ (ct : ControlType) (s : SimState),
      (update_register_from_slider ct s).register_values (control_register ct)
        = (update_register_from_slider ct s).store (control_register ct)) := by
  constructor
  · exact ⟨rfl, rfl, rfl, rfl, rfl, rfl, rfl⟩
  · intro ct s
    cases ct <;> rfl
